import Mathlib

/-!
Verification of the agent-dispatch reconciliation layer of the meet-web
repository.

The development shallowly embeds the TypeScript sources:

* `LKDispatch`: `src/server/livekit/dispatch.ts` (first revision in the file,
  the one with case-insensitive agent-name normalisation) — the dispatch
  query layer, transport-level error handling and the release operation.
* `Handler`: the Cloudflare Pages function for `/api/dispatch`
  (`src/unnamed/part_001`) — status (GET), ensure-active (POST) helpers and
  the reconciliation state machine.
* `HandlerV2`: the variant handler in `src/unnamed/part_002` (only its
  `isActiveDispatch` predicate is relevant to the claims).
* `FnApi`: `functions/api/dispatch.ts` (the self-contained variant) — its
  create-payload construction and GET active predicate.

Modelling conventions:

* JavaScript strings are Lean `String`s; `trim`, `toLowerCase`,
  `toUpperCase`, `includes` and `startsWith` are re-implemented over
  `String.data` so that they compute by kernel reduction.  Case mapping is
  ASCII (all strings compared by the code are ASCII).
* Optional / possibly-`undefined` values are `Option`s; JavaScript
  truthiness of the relevant value shapes is made explicit (`jsTruthy`,
  `truthyStr`).
* Job `status` fields may arrive as strings, numbers or other values
  (`StatusVal`); timestamp-like fields are classified by what the
  JavaScript coercions (`Number`, `Date.parse`) would produce (`TsVal`),
  with the produced epoch value carried explicitly.
* Fallible operations return `Except String`; a thrown `Error` is
  `Except.error` carrying the message.
* The upstream service is modelled as responding with an `HttpResponse`
  (status code and body text); `JSON.parse` is an oracle parameter
  (`String → Option payload`, `none` = parse failure), since its behaviour
  on arbitrary bodies is external to this repository.
-/

/-- Substring test on character lists: `hasSubstr pat hay` is true iff `pat`
occurs contiguously in `hay` (the semantics of JavaScript
`String.prototype.includes`). -/
def hasSubstr (pat : List Char) : List Char → Bool
  | [] => pat.isEmpty
  | c :: t => pat.isPrefixOf (c :: t) || hasSubstr pat t

/-- JavaScript `String.prototype.trim` (whitespace stripped from both ends). -/
def jsTrim (s : String) : String :=
  ⟨((s.data.dropWhile Char.isWhitespace).reverse.dropWhile Char.isWhitespace).reverse⟩

/-- JavaScript `String.prototype.toLowerCase` (ASCII case mapping). -/
def jsToLower (s : String) : String := ⟨s.data.map Char.toLower⟩

/-- JavaScript `String.prototype.toUpperCase` (ASCII case mapping). -/
def jsToUpper (s : String) : String := ⟨s.data.map Char.toUpper⟩

/-- JavaScript `String.prototype.includes`. -/
def jsIncludes (s pat : String) : Bool := hasSubstr pat.data s.data

/-- JavaScript `String.prototype.startsWith`. -/
def jsStartsWith (s pat : String) : Bool := pat.data.isPrefixOf s.data

/-- A JavaScript value that the schema types as `string | number | null`
(used for `state.deletedAt` and job error details). -/
inductive JsPrim where
  | str (s : String)
  | num (n : Int)
deriving DecidableEq

/-- JavaScript truthiness of an optional `string | number | null` value:
`null`/`undefined`, `""` and `0` are falsy, everything else truthy. -/
def jsTruthy : Option JsPrim → Bool
  | none => false
  | some (.str s) => s ≠ ""
  | some (.num n) => n ≠ 0

/-- Truthiness of an optional string (`undefined` and `""` are falsy). -/
def truthyStr : Option String → Bool
  | none => false
  | some s => s ≠ ""

/-- A job `status` value as received from upstream: a string, a numeric
code, or some other (non-string, non-number) value. -/
inductive StatusVal where
  | str (s : String)
  | num (n : Int)
  | other
deriving DecidableEq

/-- A timestamp-like field value, classified by what the JavaScript
coercions produce: a number; a string `Number(...)` parses to a finite
value; a string only `Date.parse` accepts (the parsed epoch value is
carried); a string neither accepts; or a non-string non-number value. -/
inductive TsVal where
  | num (n : Int)
  | strNum (n : Int)
  | strIso (n : Int)
  | strBad
  | other
deriving DecidableEq

/-- The epoch value the `pickTimestamp` loop extracts from one candidate
field, if any: numbers are taken as-is, numeric strings via `Number`,
other parseable strings via `Date.parse`. -/
def TsVal.resolve? : TsVal → Option Int
  | .num n => some n
  | .strNum n => some n
  | .strIso n => some n
  | .strBad => none
  | .other => none

/-- The `state` sub-record of a job: its `status`, the timestamp-like
fields consulted by `pickTimestamp` (in source order), and the `error`
detail. -/
structure JobState where
  status : Option StatusVal := none
  updatedAt : Option TsVal := none
  updated_at : Option TsVal := none
  endedAt : Option TsVal := none
  ended_at : Option TsVal := none
  startedAt : Option TsVal := none
  started_at : Option TsVal := none
  error : Option JsPrim := none
deriving DecidableEq

/-- A job object: its `state` field (`none` when absent or not an object). -/
structure JobRecord where
  state : Option JobState := none
deriving DecidableEq

/-- An entry of a dispatch's `state.jobs` array: a job object, or a
non-object value (filtered out by `getJobs`). -/
inductive JobEntry where
  | obj (job : JobRecord)
  | nonObj
deriving DecidableEq

/-- The `state` of an `AgentDispatch` record. `jobs = none` models an
absent or non-array `jobs` field. -/
structure AgentDispatchState where
  jobs : Option (List JobEntry) := none
  createdAt : Option JsPrim := none
  deletedAt : Option JsPrim := none
deriving DecidableEq

/-- An agent dispatch record as listed by the upstream control API. -/
structure AgentDispatch where
  agentName : Option String := none
  id : Option String := none
  state : Option AgentDispatchState := none
deriving DecidableEq

/-- A live room participant. -/
structure RoomParticipant where
  identity : Option String := none
deriving DecidableEq

/-- An upstream HTTP response: status code and body text. -/
structure HttpResponse where
  status : Nat
  body : String
deriving DecidableEq

/-- The `Response.ok` flag of the Fetch API: status in the 2xx range. -/
def respOk (r : HttpResponse) : Bool := 200 ≤ r.status && r.status ≤ 299

namespace Handler

/-- The `JOB_STATUS_BY_NUMBER` table of `part_001` (numeric job status
codes), as a partial map. -/
def JOB_STATUS_BY_NUMBER (n : Int) : Option String :=
  if n = 0 then some "JS_PENDING"
  else if n = 1 then some "JS_RUNNING"
  else if n = 2 then some "JS_SUCCESS"
  else if n = 3 then some "JS_FAILED"
  else none

/-- `normalizeStatus` of `part_001`: a string is trimmed and upper-cased
(empty giving `null`), a number is looked up in the table, anything else
gives `null`. -/
def normalizeStatus : Option StatusVal → Option String
  | some (.str s) =>
    let u := jsToUpper (jsTrim s)
    if u = "" then none else some u
  | some (.num n) => JOB_STATUS_BY_NUMBER n
  | some .other => none
  | none => none

/-- `getJobState` of `part_001`: the job's `state` if it is an object. -/
def getJobState (job : JobRecord) : Option JobState := job.state

/-- `pickTimestamp` of `part_001`: the first of
`updatedAt, updated_at, endedAt, ended_at, startedAt, started_at` that a
JavaScript coercion resolves to a finite number, else `0`. -/
def pickTimestamp (state : Option JobState) : Int :=
  match state with
  | none => 0
  | some s =>
    (([s.updatedAt, s.updated_at, s.endedAt, s.ended_at, s.startedAt, s.started_at].filterMap
        (fun c => c.bind TsVal.resolve?)).headD 0)

/-- `getJobs` of `part_001`: the dispatch's `state.jobs` array if present,
keeping only the entries that are objects. -/
def getJobs (dispatch : AgentDispatch) : List JobRecord :=
  match dispatch.state with
  | none => []
  | some st =>
    match st.jobs with
    | none => []
    | some entries => entries.filterMap (fun e => match e with | .obj j => some j | .nonObj => none)

/-- The normalized status of one job, as computed at each call site of
`part_001` (`normalizeStatus(getJobState(job)?.status)`). -/
def jobStatus (job : JobRecord) : Option String :=
  normalizeStatus ((getJobState job).bind (·.status))

/-- `isActiveDispatch` of `part_001`: not deleted, and at least one
object job whose normalized status is `JS_RUNNING` or `JS_PENDING`
(the empty-jobs early return is subsumed by `any`). -/
def isActiveDispatch (dispatch : AgentDispatch) : Bool :=
  if jsTruthy (dispatch.state.bind (·.deletedAt)) then false
  else
    let jobs := getJobs dispatch
    if jobs.length = 0 then false
    else jobs.any (fun job => jobStatus job == some "JS_RUNNING" || jobStatus job == some "JS_PENDING")

/-- The `DEFAULT_ERROR_CODE` constant of `part_001`. -/
def DEFAULT_ERROR_CODE : String := "dispatch_failed"

/-- `deriveErrorCode` of `part_001`: classify a failed job's error detail
by case-insensitive substring matching. -/
def deriveErrorCode (detail : Option String) : String :=
  match detail with
  | none => DEFAULT_ERROR_CODE
  | some s =>
    if s = "" then DEFAULT_ERROR_CODE
    else
      let normalized := jsToLower s
      if jsIncludes normalized "api key not valid" then "invalid_api_key"
      else if jsIncludes normalized "not entitled" || jsIncludes normalized "permission" then
        "permission_denied"
      else DEFAULT_ERROR_CODE

/-- `buildUserMessage` of `part_001`. -/
def buildUserMessage (code : String) (detail : Option String) : String :=
  if code = "invalid_api_key" then
    "Неправильний LLM токен. Перевірте налаштування і спробуйте ще раз."
  else if code = "permission_denied" then
    "Немає дозволу на використання цього LLM. Зверніться до адміністратора."
  else
    let fallback := "Не вдалося запустити ШІ помічника. Спробуйте ще раз пізніше."
    match detail with
    | some d => fallback ++ " (" ++ d ++ ")"
    | none => fallback

end Handler

namespace Handler

/-- The classified error info record of `part_001` (`DispatchErrorInfo`). -/
structure DispatchErrorInfo where
  code : String
  message : String
  detail : Option String
deriving DecidableEq

/-- The flattened job list `dispatches.flatMap(getJobs)` of
`extractDispatchError`. -/
def allJobs (dispatches : List AgentDispatch) : List JobRecord :=
  (dispatches.map getJobs).flatten

/-- The resolved timestamp of one job (`pickTimestamp(getJobState(job))`). -/
def jobTs (job : JobRecord) : Int := pickTimestamp (getJobState job)

/-- The `JS_FAILED` status test of `extractDispatchError`. -/
def isFailedJob (job : JobRecord) : Bool := jobStatus job == some "JS_FAILED"

/-- The `JS_RUNNING`-or-`JS_PENDING` status test of `extractDispatchError`. -/
def isActiveJob (job : JobRecord) : Bool :=
  jobStatus job == some "JS_RUNNING" || jobStatus job == some "JS_PENDING"

/-- The resolved timestamp of an (index, job) pair. -/
def tsOf (p : Nat × JobRecord) : Int := jobTs p.2

/-- The `JS_FAILED` test applied by `extractDispatchError`'s `find`. -/
def isFailedPair (p : Nat × JobRecord) : Bool := isFailedJob p.2

/-- The `JS_RUNNING`-or-`JS_PENDING` test of `extractDispatchError`. -/
def isActiveStatusPair (p : Nat × JobRecord) : Bool := isActiveJob p.2

/-- The ordering the comparator `(a, b) => pickTimestamp(b) -
pickTimestamp(a)` induces: `a` may come before `b` iff `b`'s resolved
timestamp is at most `a`'s (descending). -/
def jobsLE (a b : Nat × JobRecord) : Prop := tsOf b ≤ tsOf a

instance : DecidableRel jobsLE := fun a b => inferInstanceAs (Decidable (tsOf b ≤ tsOf a))

instance : IsTotal (Nat × JobRecord) jobsLE := ⟨fun a b => Int.le_total (tsOf b) (tsOf a)⟩

instance : IsTrans (Nat × JobRecord) jobsLE := ⟨fun _ _ _ h1 h2 => le_trans h2 h1⟩

/-- The sorted job list of `extractDispatchError`:
`[...jobs].sort((a, b) => pickTimestamp(b) - pickTimestamp(a))` — all jobs
of the given dispatches in descending resolved-timestamp order.
ECMAScript `Array.prototype.sort` is stable, and a stable sort under a
total preorder has a unique result, here modelled by the (stable)
insertion sort.  Jobs are paired with their pre-sort positions to model
JavaScript object identity (`job === failed`). -/
def sortedJobs (dispatches : List AgentDispatch) : List (Nat × JobRecord) :=
  (allJobs dispatches).enum.insertionSort jobsLE

/-- The `newerActiveJobExists` test of `extractDispatchError`: some job
other than the failed one has status `JS_RUNNING`/`JS_PENDING` and a
resolved timestamp at least the failed job's. -/
def newerActiveExists (sorted : List (Nat × JobRecord)) (failed : Nat × JobRecord) : Bool :=
  sorted.any (fun p =>
    if p.1 = failed.1 then false
    else if !isActiveStatusPair p then false
    else decide (tsOf failed ≤ tsOf p))

/-- The failed job's trimmed error detail, when its `state.error` is a
string with a non-blank trim. -/
def failedDetail (failed : Nat × JobRecord) : Option String :=
  match (getJobState failed.2).bind (·.error) with
  | some (.str s) => if jsTrim s = "" then none else some (jsTrim s)
  | _ => none

/-- `extractDispatchError` of `part_001`: flatten all jobs, sort by resolved
timestamp descending, take the first `JS_FAILED` job, suppress it if some
*other* job with status `JS_RUNNING`/`JS_PENDING` has a timestamp at least
the failed one's, otherwise classify the failed job's trimmed error detail. -/
def extractDispatchError (dispatches : List AgentDispatch) : Option DispatchErrorInfo :=
  if (allJobs dispatches).length = 0 then none
  else
    match (sortedJobs dispatches).find? isFailedPair with
    | none => none
    | some failed =>
      if newerActiveExists (sortedJobs dispatches) failed then none
      else
        some { code := deriveErrorCode (failedDetail failed)
               message := buildUserMessage (deriveErrorCode (failedDetail failed)) (failedDetail failed)
               detail := failedDetail failed }

/-- The metadata normalisation performed by `readPayload` of `part_001`
(both the query-string and the JSON-body paths use the same expression):
keep the trimmed metadata only when the raw value is a non-empty string
whose trimmed form is neither empty nor `"{}"` nor `"null"`. -/
def normalizeMetadata (rawMetadata : Option String) : Option String :=
  match rawMetadata with
  | none => none
  | some raw =>
    if raw = "" then none
    else if jsTrim raw = "" then none
    else if jsTrim raw = "\x7b\x7d" then none
    else if jsTrim raw = "null" then none
    else some (jsTrim raw)

/-- The room state the handler observes on the upstream service: the
dispatch records and live participants of the room.  One reconciliation
pass is modelled against a sequentially consistent upstream: deletions
issued earlier in the pass are visible to the later re-listing. -/
structure World where
  dispatches : List AgentDispatch
  participants : List RoomParticipant
deriving DecidableEq

/-- The `agentPresent` computation shared by the GET and POST branches of
`part_001`: some participant's trimmed identity equals the agent name or
starts with `agent-`. -/
def agentPresentOf (agentName : String) (participants : List RoomParticipant) : Bool :=
  participants.any (fun p =>
    let identity := jsTrim (p.identity.getD "")
    identity == agentName || jsStartsWith identity "agent-")

/-- The JSON body of the GET (status) response of `part_001`. -/
structure StatusResponse where
  active : Bool
  agentPresent : Bool
  dispatch : Option AgentDispatch
  total : Nat
  error : Option String
  errorCode : Option String
  errorDetail : Option String
deriving DecidableEq

/-- The GET branch of `part_001`'s `onRequest`: filter the room's
dispatches to exact `agentName` matches, pick the first active one,
extract a classified error, and report agent presence. -/
def statusResponse (agentName : String) (w : World) : StatusResponse :=
  let ours := w.dispatches.filter (fun d => d.agentName == some agentName)
  let active := ours.find? isActiveDispatch
  let dispatchError := extractDispatchError ours
  let agentPresent := agentPresentOf agentName w.participants
  { active := active.isSome
    agentPresent := agentPresent
    dispatch := active
    total := ours.length
    error := dispatchError.map (·.message)
    errorCode := dispatchError.map (·.code)
    errorDetail := dispatchError.bind (·.detail) }

end Handler

namespace LKDispatch

/-- `normalizeAgentName` of `dispatch.ts`: trim and lower-case, with
`null`/`undefined` treated as the empty string. -/
def normalizeAgentName (name : Option String) : String := jsToLower (jsTrim (name.getD ""))

/-- The filter applied by `listAgentDispatches` of `dispatch.ts`:
case-insensitive agent-name equality. -/
def matchesAgentName (agentName : String) (d : AgentDispatch) : Bool :=
  normalizeAgentName d.agentName == normalizeAgentName (some agentName)

end LKDispatch

namespace Handler

/-- The conflict-cleanup filter of the POST branch of `part_001`: the
dispatch ids deleted in step one are those of dispatches with a truthy
`agentName` that differs (as an exact string) from the configured agent
name and with a truthy `id`. -/
def conflictIds (agentName : String) (all : List AgentDispatch) : List String :=
  (all.filter (fun d => truthyStr d.agentName && d.agentName != some agentName && truthyStr d.id)).filterMap (·.id)

/-- The upstream effect of a batch of `DeleteDispatch(id)` calls: the
dispatches carrying one of the deleted ids disappear from the room. -/
def applyDeletes (ids : List String) (dispatches : List AgentDispatch) : List AgentDispatch :=
  dispatches.filter (fun d => match d.id with | some i => !ids.contains i | none => true)

/-- The re-derived list of this agent's dispatches after the conflict
cleanup: `listAgentDispatches` (case-insensitive name match) evaluated on
the room state the cleanup left behind. -/
def rederivedAgentDispatches (agentName : String) (w : World) : List AgentDispatch :=
  (applyDeletes (conflictIds agentName w.dispatches) w.dispatches).filter
    (LKDispatch.matchesAgentName agentName)

/-- The JSON body of the POST (ensure-active) response of `part_001`.  The
create branch's response carries no `reused` field, which reads back as
falsy, so it is modelled as `reused := false`. -/
structure PostResponse where
  dispatch : Option AgentDispatch
  active : Bool
  reused : Bool
  agentPresent : Bool
deriving DecidableEq

/-- One POST invocation's observable outcome: the response together with
the ids deleted in the conflict-cleanup step, the ids deleted in the
stale-cleanup step, the created dispatch (if any) and the room's dispatch
list when the invocation finishes. -/
structure PostOutcome where
  response : PostResponse
  conflictDeletes : List String
  staleDeletes : List String
  created : Option AgentDispatch
  finalDispatches : List AgentDispatch
deriving DecidableEq

/-- The dispatch the upstream creates for a `CreateDispatch(room, agentName)`
call: the requested agent name under a fresh id. -/
def createdDispatch (agentName freshId : String) : AgentDispatch :=
  { agentName := some agentName, id := some freshId, state := none }

/-- The stale-cleanup ids of the POST branch of `part_001`: the truthy ids
of the re-derived (this agent's) dispatches. -/
def staleIds (agentName : String) (w : World) : List String :=
  ((rederivedAgentDispatches agentName w).filter (fun d => truthyStr d.id)).filterMap (·.id)

/-- The POST (ensure-active) branch of `part_001`'s `onRequest`, after the
configuration and LLM-token gates: list dispatches and participants,
delete the conflicting agents' dispatches (`conflictIds`), re-derive this
agent's dispatches on the resulting state (`rederivedAgentDispatches`),
then either reuse the first active one, bail out because an agent
participant is already connected, or delete this agent's stale dispatches
(`staleIds`) and create a fresh dispatch.  The upstream is modelled as
sequentially consistent, with `CreateDispatch` returning a dispatch for
the requested agent under the fresh id `freshId`. -/
def postEnsureActive (agentName freshId : String) (w : World) : PostOutcome :=
  match (rederivedAgentDispatches agentName w).find? isActiveDispatch with
  | some activeExisting =>
    { response := { dispatch := some activeExisting, active := true, reused := true,
                    agentPresent := agentPresentOf agentName w.participants }
      conflictDeletes := conflictIds agentName w.dispatches
      staleDeletes := []
      created := none
      finalDispatches := applyDeletes (conflictIds agentName w.dispatches) w.dispatches }
  | none =>
    if agentPresentOf agentName w.participants then
      { response := { dispatch := none, active := true, reused := true, agentPresent := true }
        conflictDeletes := conflictIds agentName w.dispatches
        staleDeletes := []
        created := none
        finalDispatches := applyDeletes (conflictIds agentName w.dispatches) w.dispatches }
    else
      { response := { dispatch := some (createdDispatch agentName freshId), active := true,
                      reused := false, agentPresent := false }
        conflictDeletes := conflictIds agentName w.dispatches
        staleDeletes := staleIds agentName w
        created := some (createdDispatch agentName freshId)
        finalDispatches :=
          applyDeletes (staleIds agentName w)
            (applyDeletes (conflictIds agentName w.dispatches) w.dispatches)
          ++ [createdDispatch agentName freshId] }

end Handler

namespace HandlerV2

/-- `isActiveDispatch` of `part_002`: `Boolean(dispatch.id && !deleted)` —
a truthy `id` and no truthy `state.deletedAt`; the jobs are not consulted. -/
def isActiveDispatch (dispatch : AgentDispatch) : Bool :=
  let deleted := jsTruthy (dispatch.state.bind (·.deletedAt))
  truthyStr dispatch.id && !deleted

end HandlerV2

namespace FnApi

/-- The `CreateDispatch` request payload built by `createAgentDispatch` of
`functions/api/dispatch.ts`: `metadata = none` means the key is absent from
the serialized JSON object. -/
structure CreateDispatchPayload where
  agentName : String
  room : String
  metadata : Option String := none
deriving DecidableEq

/-- `createAgentDispatch`'s payload construction in
`functions/api/dispatch.ts`: the `metadata` key is attached only when the
argument is a non-empty string with a non-empty trim (the original,
untrimmed value is attached). -/
def createDispatchPayload (room agentName : String) (metadata : Option String) : CreateDispatchPayload :=
  { agentName := agentName
    room := room
    metadata :=
      match metadata with
      | some m => if m ≠ "" ∧ jsTrim m ≠ "" then some m else none
      | none => none }

/-- The active-dispatch selection of the GET branch of
`functions/api/dispatch.ts`: first dispatch with a non-empty `state.jobs`
array and no truthy `state.deletedAt`. -/
def findActive (ours : List AgentDispatch) : Option AgentDispatch :=
  ours.find? (fun d =>
    let jobCount := ((d.state.bind (·.jobs)).getD []).length
    let deleted := jsTruthy (d.state.bind (·.deletedAt))
    decide (jobCount > 0) && !deleted)

end FnApi

namespace LKDispatch

/-- The decoded `ListDispatch` response body; `agentDispatches = none`
models an absent field (as in the empty object `\x7b\x7d`). -/
structure ListDispatchPayload where
  agentDispatches : Option (List AgentDispatch) := none
deriving DecidableEq

/-- The decoded `ListParticipants` response body. -/
structure ListParticipantsPayload where
  participants : Option (List RoomParticipant) := none
deriving DecidableEq

/-- `parseJson` of `dispatch.ts`: a blank body yields the empty object
(`emptyObj`), an unparseable body throws `Unexpected response: <text>`,
otherwise the parse result (`parse` is the `JSON.parse` oracle). -/
def parseJson {α : Type} (parse : String → Option α) (emptyObj : α) (text : String) : Except String α :=
  if jsTrim text = "" then .ok emptyObj
  else
    match parse text with
    | some v => .ok v
    | none => .error ("Unexpected response: " ++ text)

/-- `listDispatches` of `dispatch.ts`, as a function of the upstream
`ListDispatch` response: non-2xx non-404 throws the body (or a fallback
when the body is empty), 404 yields the empty list, and a 2xx body is
parsed with `agentDispatches ?? []`. -/
def listDispatches (parse : String → Option ListDispatchPayload) (listRes : HttpResponse) :
    Except String (List AgentDispatch) :=
  if !respOk listRes ∧ listRes.status ≠ 404 then
    .error (if listRes.body = "" then "ListDispatch failed with status " ++ toString listRes.status
            else listRes.body)
  else if !respOk listRes then .ok []
  else (parseJson parse {} listRes.body).map (fun data => data.agentDispatches.getD [])

/-- `listParticipants` of `dispatch.ts`: same response handling as
`listDispatches`, for the `ListParticipants` call. -/
def listParticipants (parse : String → Option ListParticipantsPayload) (res : HttpResponse) :
    Except String (List RoomParticipant) :=
  if !respOk res ∧ res.status ≠ 404 then
    .error (if res.body = "" then "ListParticipants failed with status " ++ toString res.status
            else res.body)
  else if !respOk res then .ok []
  else (parseJson parse {} res.body).map (fun data => data.participants.getD [])

/-- The `CreateDispatch` request body of `createAgentDispatch` in
`dispatch.ts`: `JSON.stringify({ room, agentName, metadata })`.
`JSON.stringify` omits properties whose value is `undefined`, so
`metadata = none` means the serialized body has no `metadata` key. -/
structure CreateDispatchBody where
  room : String
  agentName : String
  metadata : Option String
deriving DecidableEq

/-- The body `createAgentDispatch` of `dispatch.ts` sends: the metadata
argument is passed through unchanged. -/
def createDispatchBody (room agentName : String) (metadata : Option String) : CreateDispatchBody :=
  { room := room, agentName := agentName, metadata := metadata }

/-- `deleteAgentDispatch` of `dispatch.ts`, as a function of the upstream
`DeleteDispatch` response: non-2xx non-404 throws (body, or a fallback when
the body is empty); 2xx and 404 both succeed. -/
def deleteAgentDispatch (res : HttpResponse) : Except String Unit :=
  if !respOk res ∧ res.status ≠ 404 then
    .error (if res.body = "" then "DeleteDispatch failed with status " ++ toString res.status
            else res.body)
  else .ok ()

/-- `removeParticipant` of `dispatch.ts`: a non-2xx non-404 response is
only logged (the warning is returned), never thrown. -/
def removeParticipant (res : HttpResponse) : Option String :=
  if !respOk res ∧ res.status ≠ 404 then some ("RemoveParticipant failed: " ++ res.body)
  else none

/-- `removeAgentDispatch` of `dispatch.ts` (the release operation): list
the room's dispatches, delete every dispatch matching the agent name
(case-insensitively) that has a truthy id, then best-effort kick the
agent-like participants, and return the number of matches.  `deleteRes`
and `removeRes` give the upstream's response to the delete/remove call for
each dispatch id / identity. -/
def removeAgentDispatch (agentName : String)
    (ldParse : String → Option ListDispatchPayload)
    (lpParse : String → Option ListParticipantsPayload)
    (ldRes lpRes : HttpResponse)
    (deleteRes : String → HttpResponse)
    (removeRes : String → HttpResponse) : Except String Nat := do
  let allDispatches ← listDispatches ldParse ldRes
  let normalized := normalizeAgentName (some agentName)
  let matched := allDispatches.filter
    (fun d => normalizeAgentName d.agentName == normalized && truthyStr d.id)
  matched.forM (fun d => deleteAgentDispatch (deleteRes (d.id.getD "")))
  let participants ← listParticipants lpParse lpRes
  let agentParticipants := participants.filter (fun p =>
    let idTrim := jsTrim (p.identity.getD "")
    let lowerId := jsToLower idTrim
    lowerId == normalized || jsStartsWith lowerId "agent-")
  let _warnings := agentParticipants.map (fun p =>
    if truthyStr p.identity then removeParticipant (removeRes (p.identity.getD "")) else none)
  pure matched.length

end LKDispatch

/-- Claim C9: `deriveErrorCode` returns `invalid_api_key` when the detail
contains `api key not valid` (case-insensitively), `permission_denied` when
it does not but contains `not entitled` or `permission`, and
`dispatch_failed` otherwise, including when the detail is absent. -/
theorem c9_error_classification (detail : Option String) :
    (∀ s, detail = some s → jsIncludes (jsToLower s) "api key not valid" = true →
      Handler.deriveErrorCode detail = "invalid_api_key")
    ∧ (∀ s, detail = some s → jsIncludes (jsToLower s) "api key not valid" = false →
        (jsIncludes (jsToLower s) "not entitled" = true ∨ jsIncludes (jsToLower s) "permission" = true) →
        Handler.deriveErrorCode detail = "permission_denied")
    ∧ (detail = none → Handler.deriveErrorCode detail = "dispatch_failed")
    ∧ (∀ s, detail = some s → jsIncludes (jsToLower s) "api key not valid" = false →
        jsIncludes (jsToLower s) "not entitled" = false →
        jsIncludes (jsToLower s) "permission" = false →
        Handler.deriveErrorCode detail = "dispatch_failed") := by
  refine ⟨?_, ?_, ?_, ?_⟩
  · intro s hd hinc
    subst hd
    by_cases hs : s = ""
    · subst hs; exact absurd hinc (by decide)
    · simp [Handler.deriveErrorCode, hs, hinc]
  · intro s hd h1 h23
    subst hd
    by_cases hs : s = ""
    · subst hs; rcases h23 with h | h <;> exact absurd h (by decide)
    · rcases h23 with h | h <;> simp [Handler.deriveErrorCode, hs, h1, h]
  · intro hd; subst hd; rfl
  · intro s hd h1 h2 h3
    subst hd
    by_cases hs : s = ""
    · simp [Handler.deriveErrorCode, hs, Handler.DEFAULT_ERROR_CODE]
    · simp [Handler.deriveErrorCode, hs, h1, h2, h3, Handler.DEFAULT_ERROR_CODE]

/-- Witness for C9: the classification evaluated on concrete details of
each kind. -/
theorem c9_witness :
    Handler.deriveErrorCode (some "Error: API Key not valid!") = "invalid_api_key"
    ∧ Handler.deriveErrorCode (some "user is NOT Entitled to this model") = "permission_denied"
    ∧ Handler.deriveErrorCode none = "dispatch_failed"
    ∧ Handler.deriveErrorCode (some "something else went wrong") = "dispatch_failed" :=
  ⟨(c9_error_classification (some "Error: API Key not valid!")).1 _ rfl (by decide),
   (c9_error_classification (some "user is NOT Entitled to this model")).2.1 _ rfl (by decide)
     (Or.inl (by decide)),
   (c9_error_classification none).2.2.1 rfl,
   (c9_error_classification (some "something else went wrong")).2.2.2 _ rfl (by decide) (by decide)
     (by decide)⟩

/-- Claim C7: when the request metadata trims to `""`, `"{}"` or `"null"`,
the handler's payload normalisation drops it, and both `CreateDispatch`
body builders attach no `metadata` field. -/
theorem c7_metadata_omission (raw room agentName : String)
    (h : jsTrim raw = "" ∨ jsTrim raw = "\x7b\x7d" ∨ jsTrim raw = "null") :
    Handler.normalizeMetadata (some raw) = none
    ∧ (LKDispatch.createDispatchBody room agentName (Handler.normalizeMetadata (some raw))).metadata = none
    ∧ (FnApi.createDispatchPayload room agentName (Handler.normalizeMetadata (some raw))).metadata = none := by
  have hm : Handler.normalizeMetadata (some raw) = none := by
    unfold Handler.normalizeMetadata
    rcases h with h | h | h <;> simp [h]
  refine ⟨hm, ?_, ?_⟩ <;> rw [hm] <;> rfl

/-- Witness for C7: metadata `" {} "` is dropped end to end. -/
theorem c7_witness :
    Handler.normalizeMetadata (some " \x7b\x7d ") = none
    ∧ (LKDispatch.createDispatchBody "room-abc" "assistant" (Handler.normalizeMetadata (some " \x7b\x7d "))).metadata = none
    ∧ (FnApi.createDispatchPayload "room-abc" "assistant" (Handler.normalizeMetadata (some " \x7b\x7d "))).metadata = none :=
  c7_metadata_omission " \x7b\x7d " "room-abc" "assistant" (Or.inr (Or.inl (by decide)))

/-- Counterexample for C5: a 500 response with an empty body makes
`listDispatches` throw the fallback message `ListDispatch failed with
status 500`, which is not the (empty) upstream response body — so the
thrown message is not always the upstream body. -/
theorem c5_counterexample :
    LKDispatch.listDispatches (fun _ => none) { status := 500, body := "" }
      = Except.error "ListDispatch failed with status 500"
    ∧ respOk { status := 500, body := "" } = false
    ∧ "ListDispatch failed with status 500" ≠ "" :=
  ⟨rfl, rfl, by decide⟩

/-- Claim C5 (amended): `listDispatches` and `listParticipants` return the
empty list on a 404 and throw on any other non-2xx response, with the
upstream body as the message when the body is non-empty and a fallback
naming the call and status code when the body is empty. -/
theorem c5_list_error_handling
    (ldParse : String → Option LKDispatch.ListDispatchPayload)
    (lpParse : String → Option LKDispatch.ListParticipantsPayload)
    (res : HttpResponse) :
    (res.status = 404 →
      LKDispatch.listDispatches ldParse res = .ok []
      ∧ LKDispatch.listParticipants lpParse res = .ok [])
    ∧ (respOk res = false → res.status ≠ 404 → res.body ≠ "" →
      LKDispatch.listDispatches ldParse res = .error res.body
      ∧ LKDispatch.listParticipants lpParse res = .error res.body)
    ∧ (respOk res = false → res.status ≠ 404 → res.body = "" →
      LKDispatch.listDispatches ldParse res
        = .error ("ListDispatch failed with status " ++ toString res.status)
      ∧ LKDispatch.listParticipants lpParse res
        = .error ("ListParticipants failed with status " ++ toString res.status)) := by
  refine ⟨?_, ?_, ?_⟩
  · intro h404
    have hok : respOk res = false := by simp [respOk, h404]
    constructor <;> simp [LKDispatch.listDispatches, LKDispatch.listParticipants, hok, h404]
  · intro hok h404 hbody
    constructor <;>
      simp [LKDispatch.listDispatches, LKDispatch.listParticipants, hok, h404, hbody]
  · intro hok h404 hbody
    constructor <;>
      simp [LKDispatch.listDispatches, LKDispatch.listParticipants, hok, h404, hbody]

/-- Witness for C5 (amended): a 404 yields empty lists, and a 502 with a
non-empty body throws exactly that body. -/
theorem c5_witness :
    (LKDispatch.listDispatches (fun _ => none) { status := 404, body := "nope" } = .ok []
      ∧ LKDispatch.listParticipants (fun _ => none) { status := 404, body := "nope" } = .ok [])
    ∧ (LKDispatch.listDispatches (fun _ => none) { status := 502, body := "upstream oops" }
        = .error "upstream oops"
      ∧ LKDispatch.listParticipants (fun _ => none) { status := 502, body := "upstream oops" }
        = .error "upstream oops") :=
  ⟨(c5_list_error_handling (fun _ => none) (fun _ => none) { status := 404, body := "nope" }).1 rfl,
   (c5_list_error_handling (fun _ => none) (fun _ => none) { status := 502, body := "upstream oops" }).2.1
     rfl (by decide) (by decide)⟩

/-- Claim C10: on a 2xx response, a blank (empty or whitespace-only) body
parses to the empty object so both list calls return the empty list, and a
non-blank body that `JSON.parse` rejects throws
`Unexpected response: <body>`. -/
theorem c10_blank_body_parsing
    (ldParse : String → Option LKDispatch.ListDispatchPayload)
    (lpParse : String → Option LKDispatch.ListParticipantsPayload)
    (res : HttpResponse) :
    (respOk res = true → jsTrim res.body = "" →
      LKDispatch.parseJson ldParse ({} : LKDispatch.ListDispatchPayload) res.body = .ok {}
      ∧ LKDispatch.listDispatches ldParse res = .ok []
      ∧ LKDispatch.listParticipants lpParse res = .ok [])
    ∧ (respOk res = true → jsTrim res.body ≠ "" → ldParse res.body = none →
      LKDispatch.listDispatches ldParse res = .error ("Unexpected response: " ++ res.body))
    ∧ (respOk res = true → jsTrim res.body ≠ "" → lpParse res.body = none →
      LKDispatch.listParticipants lpParse res = .error ("Unexpected response: " ++ res.body)) := by
  refine ⟨?_, ?_, ?_⟩
  · intro hok hblank
    refine ⟨?_, ?_, ?_⟩ <;>
      simp [LKDispatch.parseJson, LKDispatch.listDispatches, LKDispatch.listParticipants, hok,
        hblank, Except.map]
  · intro hok hblank hparse
    simp [LKDispatch.listDispatches, LKDispatch.parseJson, hok, hblank, hparse, Except.map]
  · intro hok hblank hparse
    simp [LKDispatch.listParticipants, LKDispatch.parseJson, hok, hblank, hparse, Except.map]

/-- Witness for C10: a whitespace-only 200 body gives empty lists; an
unparseable 200 body gives the prefixed error. -/
theorem c10_witness :
    (LKDispatch.parseJson (fun _ => none) ({} : LKDispatch.ListDispatchPayload) " \t " = .ok {}
      ∧ LKDispatch.listDispatches (fun _ => none) { status := 200, body := " \t " } = .ok []
      ∧ LKDispatch.listParticipants (fun _ => none) { status := 200, body := " \t " } = .ok [])
    ∧ LKDispatch.listDispatches (fun _ => none) { status := 200, body := "oops" }
        = .error "Unexpected response: oops" :=
  ⟨(c10_blank_body_parsing (fun _ => none) (fun _ => none) { status := 200, body := " \t " }).1
      rfl (by decide),
   (c10_blank_body_parsing (fun _ => none) (fun _ => none) { status := 200, body := "oops" }).2.1
      rfl (by decide) rfl⟩

/-- Helper: a batch of `Except`-valued actions that all succeed makes the
`forM` traversal succeed (the model of an all-resolving `Promise.all`). -/
theorem forM_ok_of_all_ok {α : Type} {f : α → Except String Unit} :
    ∀ {l : List α}, (∀ a ∈ l, f a = .ok ()) → l.forM f = .ok () := by
  intro l
  induction l with
  | nil => intro _; rfl
  | cons x xs ih =>
    intro h
    have hx := h x (by simp)
    simp only [List.forM, hx]
    have := ih (fun a ha => h a (by simp [ha]))
    simpa using this

/-- Helper: a `DeleteDispatch` response that is 2xx or 404 never throws. -/
theorem deleteAgentDispatch_ok (res : HttpResponse)
    (h : respOk res = true ∨ res.status = 404) :
    LKDispatch.deleteAgentDispatch res = .ok () := by
  rcases h with h | h <;> simp [LKDispatch.deleteAgentDispatch, h]

/-- Claim C8: in the release operation, deletes answered with 404 raise no
error, and the removed count is the number of dispatches in the initial
listing that match the agent name (case-insensitively) and have a truthy
id, independent of the individual delete outcomes. -/
theorem c8_release_best_effort (agentName : String)
    (ldParse : String → Option LKDispatch.ListDispatchPayload)
    (lpParse : String → Option LKDispatch.ListParticipantsPayload)
    (ldRes lpRes : HttpResponse)
    (deleteRes removeRes : String → HttpResponse)
    (ds : List AgentDispatch) (ps : List RoomParticipant)
    (hld : LKDispatch.listDispatches ldParse ldRes = .ok ds)
    (hlp : LKDispatch.listParticipants lpParse lpRes = .ok ps)
    (hdel : ∀ i, respOk (deleteRes i) = true ∨ (deleteRes i).status = 404) :
    LKDispatch.removeAgentDispatch agentName ldParse lpParse ldRes lpRes deleteRes removeRes
      = .ok (ds.filter (fun d =>
          LKDispatch.normalizeAgentName d.agentName
              == LKDispatch.normalizeAgentName (some agentName)
            && truthyStr d.id)).length := by
  have hforM :
      (ds.filter (fun d =>
          LKDispatch.normalizeAgentName d.agentName
              == LKDispatch.normalizeAgentName (some agentName)
            && truthyStr d.id)).forM
        (fun d => LKDispatch.deleteAgentDispatch (deleteRes (d.id.getD ""))) = .ok () :=
    forM_ok_of_all_ok (fun a _ => deleteAgentDispatch_ok _ (hdel _))
  simp only [LKDispatch.removeAgentDispatch, hld, hlp, Except.bind, bind, pure, Except.pure,
    hforM]

/-- Witness input for C8: a listing with one case-insensitive match that
has an id, one match without an id, and one other-agent dispatch. -/
def c8Listing : List AgentDispatch :=
  [{ agentName := some "AGENT", id := some "7" },
   { agentName := some "agent", id := none },
   { agentName := some "other", id := some "9" }]

/-- Witness for C8: one matching dispatch whose delete answers 404 still
counts, giving removed = 1. -/
theorem c8_witness :
    LKDispatch.removeAgentDispatch "Agent"
      (fun _ => some { agentDispatches := some c8Listing })
      (fun _ => some {})
      { status := 200, body := "x" } { status := 404, body := "" }
      (fun _ => { status := 404, body := "" }) (fun _ => { status := 200, body := "" })
      = .ok 1 :=
  c8_release_best_effort "Agent"
    (fun _ => some { agentDispatches := some c8Listing }) (fun _ => some {})
    { status := 200, body := "x" } { status := 404, body := "" }
    (fun _ => { status := 404, body := "" }) (fun _ => { status := 200, body := "" })
    c8Listing [] rfl rfl (fun _ => Or.inr rfl)

/-- Counterexample for C2: `part_001`'s `isActiveDispatch` treats a
dispatch with no `id` but a running job as active, so the activity
predicate does not require an id. -/
def c2Dispatch : AgentDispatch :=
  { agentName := some "assistant", id := none,
    state := some { jobs := some [.obj { state := some { status := some (.str "JS_RUNNING") } }] } }

/-- Counterexample for C2: the reconciler's activity predicate in
`part_001` accepts a dispatch without an id. -/
theorem c2_counterexample :
    Handler.isActiveDispatch c2Dispatch = true ∧ c2Dispatch.id = none :=
  ⟨by decide, rfl⟩

/-- Claim C2 (amended): `part_001` treats a dispatch as active iff it is
not deleted and has at least one object job whose normalized status is
`JS_RUNNING` or `JS_PENDING` (the id is not consulted), while `part_002`
treats a dispatch as active iff it has a truthy id and is not deleted (the
jobs are not consulted). -/
theorem c2_active_predicate (d : AgentDispatch) :
    (Handler.isActiveDispatch d = true ↔
      jsTruthy (d.state.bind (·.deletedAt)) = false
      ∧ ∃ j ∈ Handler.getJobs d,
          Handler.jobStatus j = some "JS_RUNNING" ∨ Handler.jobStatus j = some "JS_PENDING")
    ∧ (HandlerV2.isActiveDispatch d = true ↔
      truthyStr d.id = true ∧ jsTruthy (d.state.bind (·.deletedAt)) = false) := by
  constructor
  · simp only [Handler.isActiveDispatch]
    split
    · next h => simp [h]
    · next h =>
      rw [Bool.not_eq_true] at h
      split
      · next hlen =>
        have hnil : Handler.getJobs d = [] := List.length_eq_zero.mp hlen
        simp [hnil, h]
      · next hlen =>
        simp [List.any_eq_true, h, Bool.or_eq_true, beq_iff_eq]
  · simp [HandlerV2.isActiveDispatch, Bool.not_eq_true']

/-- Counterexample input for C6: a dispatch whose `state.deletedAt` is
present but is the empty string (JavaScript-falsy). -/
def c6Dispatch : AgentDispatch :=
  { agentName := some "assistant", id := some "1",
    state := some
      { jobs := some [.obj { state := some { status := some (.str "JS_RUNNING") } }],
        deletedAt := some (.str "") } }

/-- Counterexample for C6: a dispatch whose `deletedAt` is set to the
empty string (present, and not a zero number) is still reported as the
active dispatch by the status operation, in `part_001` and in
`functions/api/dispatch.ts`. -/
theorem c6_counterexample :
    c6Dispatch.state.bind (·.deletedAt) = some (.str "")
    ∧ (Handler.statusResponse "assistant"
        { dispatches := [c6Dispatch], participants := [] }).dispatch = some c6Dispatch
    ∧ (Handler.statusResponse "assistant"
        { dispatches := [c6Dispatch], participants := [] }).active = true
    ∧ FnApi.findActive [c6Dispatch] = some c6Dispatch := by
  refine ⟨rfl, by decide, by decide, by decide⟩

/-- Claim C6 (amended): a dispatch whose `state.deletedAt` is truthy (a
non-empty string or a non-zero number) is never reported as the active
dispatch by the status operation, regardless of its jobs — both by
`part_001`'s GET branch and by `functions/api/dispatch.ts`'s GET branch. -/
theorem c6_deleted_never_active (agentName : String) (w : Handler.World) (d : AgentDispatch)
    (hdel : jsTruthy (d.state.bind (·.deletedAt)) = true) :
    (Handler.statusResponse agentName w).dispatch ≠ some d
    ∧ ∀ ds : List AgentDispatch, FnApi.findActive ds ≠ some d := by
  constructor
  · intro hc
    simp only [Handler.statusResponse] at hc
    have hact := List.find?_some hc
    simp [Handler.isActiveDispatch, hdel] at hact
  · intro ds hc
    have hact := List.find?_some hc
    simp [hdel] at hact

/-- Witness input for C6 (amended): a dispatch deleted at epoch 123 with a
running job. -/
def c6WitnessDispatch : AgentDispatch :=
  { agentName := some "assistant", id := some "1",
    state := some
      { jobs := some [.obj { state := some { status := some (.str "JS_RUNNING") } }],
        deletedAt := some (.num 123) } }

/-- Witness for C6 (amended): the truthily-deleted dispatch is not
reported active in a concrete room. -/
theorem c6_witness :
    (Handler.statusResponse "assistant"
      { dispatches := [c6WitnessDispatch], participants := [] }).dispatch ≠ some c6WitnessDispatch
    ∧ FnApi.findActive [c6WitnessDispatch] ≠ some c6WitnessDispatch :=
  ⟨(c6_deleted_never_active "assistant"
      { dispatches := [c6WitnessDispatch], participants := [] } c6WitnessDispatch (by decide)).1,
   (c6_deleted_never_active "assistant"
      { dispatches := [c6WitnessDispatch], participants := [] } c6WitnessDispatch (by decide)).2
     [c6WitnessDispatch]⟩

/-- Helper: membership in a delete-filtered room implies membership in the
original room. -/
theorem mem_applyDeletes_sub {ids : List String} {l : List AgentDispatch} {d : AgentDispatch}
    (h : d ∈ Handler.applyDeletes ids l) : d ∈ l := (List.mem_filter.mp h).1

/-- Helper: a dispatch whose id was deleted is gone from the room. -/
theorem not_mem_applyDeletes {ids : List String} {l : List AgentDispatch} {d : AgentDispatch}
    {i : String} (hid : d.id = some i) (hin : i ∈ ids) :
    d ∉ Handler.applyDeletes ids l := by
  intro hmem
  have hp := (List.mem_filter.mp hmem).2
  rw [hid] at hp
  simp at hp
  exact hp hin

/-- Claim C1 (amended): when the re-derived list of this agent's dispatches
contains an active one, the POST handler returns the first such dispatch
with `reused = true` and `active = true`, creates nothing, and performs no
deletions beyond the conflict-cleanup step (the room state after the
invocation is exactly the conflict-cleaned state). -/
theorem c1_reuse_active (agentName freshId : String) (w : Handler.World) (a : AgentDispatch)
    (h : (Handler.rederivedAgentDispatches agentName w).find? Handler.isActiveDispatch = some a) :
    (Handler.postEnsureActive agentName freshId w).response
      = { dispatch := some a, active := true, reused := true,
          agentPresent := Handler.agentPresentOf agentName w.participants }
    ∧ (Handler.postEnsureActive agentName freshId w).created = none
    ∧ (Handler.postEnsureActive agentName freshId w).staleDeletes = []
    ∧ (Handler.postEnsureActive agentName freshId w).finalDispatches
      = Handler.applyDeletes (Handler.conflictIds agentName w.dispatches) w.dispatches := by
  simp [Handler.postEnsureActive, h]

/-- Witness input for C1 (amended): a single active dispatch with the
exact configured agent name. -/
def c1WitnessDispatch : AgentDispatch :=
  { agentName := some "assistant", id := some "1",
    state := some { jobs := some [.obj { state := some { status := some (.str "JS_RUNNING") } }] } }

/-- Witness world for C1 (amended). -/
def c1WitnessWorld : Handler.World :=
  { dispatches := [c1WitnessDispatch], participants := [] }

/-- Witness for C1 (amended): the active dispatch is reused, nothing is
created and no stale delete happens. -/
theorem c1_witness :
    (Handler.rederivedAgentDispatches "assistant" c1WitnessWorld).find? Handler.isActiveDispatch
      = some c1WitnessDispatch
    ∧ (Handler.postEnsureActive "assistant" "fresh" c1WitnessWorld).response
      = { dispatch := some c1WitnessDispatch, active := true, reused := true, agentPresent := false }
    ∧ (Handler.postEnsureActive "assistant" "fresh" c1WitnessWorld).created = none
    ∧ (Handler.postEnsureActive "assistant" "fresh" c1WitnessWorld).staleDeletes = [] := by
  have h : (Handler.rederivedAgentDispatches "assistant" c1WitnessWorld).find?
      Handler.isActiveDispatch = some c1WitnessDispatch := by decide
  have hc := c1_reuse_active "assistant" "fresh" c1WitnessWorld c1WitnessDispatch h
  exact ⟨h, hc.1, hc.2.1, hc.2.2.1⟩

/-- Counterexample input for C1: an active dispatch whose agent name
differs from the configured name only in case. -/
def c1CexDA : AgentDispatch :=
  { agentName := some "Assistant", id := some "1",
    state := some { jobs := some [.obj { state := some { status := some (.str "JS_RUNNING") } }] } }

/-- Counterexample input for C1: an active dispatch with the exact
configured agent name. -/
def c1CexDB : AgentDispatch :=
  { agentName := some "assistant", id := some "2",
    state := some { jobs := some [.obj { state := some { status := some (.str "JS_RUNNING") } }] } }

/-- Counterexample world for C1. -/
def c1CexWorld : Handler.World := { dispatches := [c1CexDA, c1CexDB], participants := [] }

/-- Counterexample for C1: the re-derived list still contains an active
dispatch (so the claim's hypothesis holds and the handler reuses it), yet
the invocation deleted a dispatch of this agent — `c1CexDA` matches the
agent name under the case-insensitive comparison the re-derivation itself
uses, but the conflict-cleanup step compares names exactly and evicts it. -/
theorem c1_counterexample :
    (Handler.rederivedAgentDispatches "assistant" c1CexWorld).find? Handler.isActiveDispatch
      = some c1CexDB
    ∧ c1CexDA ∈ c1CexWorld.dispatches
    ∧ LKDispatch.matchesAgentName "assistant" c1CexDA = true
    ∧ c1CexDA.id = some "1"
    ∧ "1" ∈ (Handler.postEnsureActive "assistant" "fresh" c1CexWorld).conflictDeletes
    ∧ c1CexDA ∉ (Handler.postEnsureActive "assistant" "fresh" c1CexWorld).finalDispatches := by
  decide

/-- Claim C3 (amended): an ensure-active call for agent `A` deletes every
dispatch of a different agent that has a truthy id (such dispatches never
survive to the final room state); and when every dispatch has a truthy id,
no agent participant is present and no dispatch of `A` is active after the
cleanup, exactly one dispatch matching `A` (the newly created one) exists
afterward. -/
theorem c3_conflict_eviction (agentName freshId : String) (w : Handler.World) :
    (∀ d ∈ w.dispatches, ∀ s i, d.agentName = some s → s ≠ "" → s ≠ agentName →
      d.id = some i → i ≠ "" →
      d ∉ (Handler.postEnsureActive agentName freshId w).finalDispatches)
    ∧ ((∀ d ∈ w.dispatches, truthyStr d.id = true) →
      Handler.agentPresentOf agentName w.participants = false →
      (Handler.rederivedAgentDispatches agentName w).find? Handler.isActiveDispatch = none →
      ((Handler.postEnsureActive agentName freshId w).finalDispatches.filter
        (LKDispatch.matchesAgentName agentName)).length = 1) := by
  constructor
  · intro d hd s i hs hse hsa hid hie
    have hin : i ∈ Handler.conflictIds agentName w.dispatches := by
      unfold Handler.conflictIds
      refine List.mem_filterMap.mpr ⟨d, List.mem_filter.mpr ⟨hd, ?_⟩, hid⟩
      simp [truthyStr, hs, hid, hse, hie, hsa]
    cases hfind : (Handler.rederivedAgentDispatches agentName w).find? Handler.isActiveDispatch with
    | some a0 =>
      simp only [Handler.postEnsureActive, hfind]
      exact not_mem_applyDeletes hid hin
    | none =>
      simp only [Handler.postEnsureActive, hfind]
      by_cases hap : Handler.agentPresentOf agentName w.participants = true
      · simp only [hap, if_true]
        exact not_mem_applyDeletes hid hin
      · rw [Bool.not_eq_true] at hap
        simp only [hap, Bool.false_eq_true, if_false]
        intro hmem
        rcases List.mem_append.mp hmem with hm | hm
        · exact not_mem_applyDeletes hid hin (mem_applyDeletes_sub hm)
        · have hd_eq : d = Handler.createdDispatch agentName freshId := by simpa using hm
          rw [hd_eq] at hs
          have : some agentName = some s := hs
          exact hsa (Option.some.inj this).symm
  · intro hids hap hfind
    simp only [Handler.postEnsureActive, hfind, hap, Bool.false_eq_true, if_false]
    rw [List.filter_append]
    have h1 : (Handler.applyDeletes (Handler.staleIds agentName w)
        (Handler.applyDeletes (Handler.conflictIds agentName w.dispatches) w.dispatches)).filter
        (LKDispatch.matchesAgentName agentName) = [] := by
      apply List.filter_eq_nil_iff.mpr
      intro d hd hmatch
      have hdAC : d ∈ Handler.applyDeletes (Handler.conflictIds agentName w.dispatches)
          w.dispatches := mem_applyDeletes_sub hd
      have hdw : d ∈ w.dispatches := mem_applyDeletes_sub hdAC
      have htr : truthyStr d.id = true := hids d hdw
      obtain ⟨i, hid⟩ : ∃ i, d.id = some i := by
        cases hdid : d.id with
        | none => rw [hdid] at htr; simp [truthyStr] at htr
        | some i => exact ⟨i, rfl⟩
      have hex : d ∈ Handler.rederivedAgentDispatches agentName w := by
        unfold Handler.rederivedAgentDispatches
        exact List.mem_filter.mpr ⟨hdAC, hmatch⟩
      have hin : i ∈ Handler.staleIds agentName w := by
        unfold Handler.staleIds
        exact List.mem_filterMap.mpr ⟨d, List.mem_filter.mpr ⟨hex, htr⟩, hid⟩
      exact absurd hd (not_mem_applyDeletes hid hin)
    rw [h1]
    simp [LKDispatch.matchesAgentName, Handler.createdDispatch]

/-- Witness input for C3 (amended): a stale (inactive) dispatch of agent
`a`. -/
def c3WitnessDA : AgentDispatch := { agentName := some "a", id := some "2", state := none }

/-- Witness input for C3 (amended): a dispatch of the different agent `b`
with an id. -/
def c3WitnessDB : AgentDispatch := { agentName := some "b", id := some "1", state := none }

/-- Witness world for C3 (amended). -/
def c3WitnessWorld : Handler.World :=
  { dispatches := [c3WitnessDA, c3WitnessDB], participants := [] }

/-- Witness for C3 (amended): the other agent's dispatch is evicted and
exactly one dispatch of agent `a` (the created one) remains. -/
theorem c3_witness :
    c3WitnessDB ∉ (Handler.postEnsureActive "a" "fresh" c3WitnessWorld).finalDispatches
    ∧ ((Handler.postEnsureActive "a" "fresh" c3WitnessWorld).finalDispatches.filter
        (LKDispatch.matchesAgentName "a")).length = 1 :=
  ⟨(c3_conflict_eviction "a" "fresh" c3WitnessWorld).1 c3WitnessDB (by decide) "b" "1"
      rfl (by decide) (by decide) rfl (by decide),
   (c3_conflict_eviction "a" "fresh" c3WitnessWorld).2 (by decide) (by decide) (by decide)⟩

/-- Counterexample input for C3: an active dispatch of agent `a`. -/
def c3CexA1 : AgentDispatch :=
  { agentName := some "a", id := some "1",
    state := some { jobs := some [.obj { state := some { status := some (.str "JS_RUNNING") } }] } }

/-- Counterexample input for C3: a second active dispatch of agent `a`. -/
def c3CexA2 : AgentDispatch :=
  { agentName := some "a", id := some "2",
    state := some { jobs := some [.obj { state := some { status := some (.str "JS_RUNNING") } }] } }

/-- Counterexample input for C3: a dispatch of the different agent `b`
without an id. -/
def c3CexB : AgentDispatch := { agentName := some "b", id := none, state := none }

/-- Counterexample world for C3: dispatches for agent `a` and for the
different agent `b` in the same room. -/
def c3CexWorld : Handler.World :=
  { dispatches := [c3CexA1, c3CexA2, c3CexB], participants := [] }

/-- Counterexample for C3: after ensure-active for `a`, the id-less
dispatch of the different agent `b` still exists (not all of `b`'s
dispatches are deleted), and two dispatches of `a` exist (not exactly
one): the reuse path leaves every surviving dispatch of `a` in place. -/
theorem c3_counterexample :
    c3CexA1 ∈ c3CexWorld.dispatches ∧ c3CexA1.agentName = some "a"
    ∧ c3CexB ∈ c3CexWorld.dispatches ∧ c3CexB.agentName = some "b"
    ∧ c3CexB ∈ (Handler.postEnsureActive "a" "fresh" c3CexWorld).finalDispatches
    ∧ ((Handler.postEnsureActive "a" "fresh" c3CexWorld).finalDispatches.filter
        (fun d => d.agentName == some "a")).length = 2 := by
  decide

/-- Helper: on a list that is pairwise sorted by descending key, a
successful `find?` returns an element whose key is maximal among the
elements satisfying the predicate. -/
theorem find?_key_max {α : Type} (key : α → Int) {p : α → Bool} :
    ∀ {l : List α} {f : α}, l.Pairwise (fun a b => key b ≤ key a) → l.find? p = some f →
      ∀ q ∈ l, p q = true → key q ≤ key f := by
  intro l
  induction l with
  | nil => intro f _ hf; cases hf
  | cons x xs ih =>
    intro f hpw hfind q hq hpq
    rw [List.pairwise_cons] at hpw
    by_cases hpx : p x = true
    · rw [List.find?_cons_of_pos _ hpx] at hfind
      have hfx : f = x := (Option.some.inj hfind).symm
      subst hfx
      rcases List.mem_cons.mp hq with hq | hq
      · subst hq; exact le_refl _
      · exact hpw.1 q hq
    · rw [List.find?_cons_of_neg _ (by simpa using hpx)] at hfind
      rcases List.mem_cons.mp hq with hq | hq
      · subst hq; exact absurd hpq hpx
      · exact ih hpw.2 hfind q hq hpq

/-- Helper: every list member appears in the enumeration, at some index. -/
theorem mem_enum_of_mem {α : Type} {a : α} {l : List α} (h : a ∈ l) : ∃ i, (i, a) ∈ l.enum := by
  obtain ⟨i, hi⟩ := List.mem_iff_getElem?.mp h
  exact ⟨i, List.mem_enum_iff_getElem?.mpr hi⟩

/-- Helper: the payload of an enumeration member is a list member. -/
theorem mem_of_mem_enum {α : Type} {q : Nat × α} {l : List α} (h : q ∈ l.enum) : q.2 ∈ l :=
  List.mem_iff_getElem?.mpr ⟨q.1, List.mem_enum_iff_getElem?.mp h⟩

/-- Helper: the enumeration pairs each index with a unique payload. -/
theorem enum_index_inj {α : Type} {i : Nat} {a b : α} {l : List α}
    (ha : (i, a) ∈ l.enum) (hb : (i, b) ∈ l.enum) : a = b := by
  have h1 := List.mem_enum_iff_getElem?.mp ha
  have h2 := List.mem_enum_iff_getElem?.mp hb
  rw [h1] at h2
  exact Option.some.inj h2

/-- Helper: the sorted job list is pairwise descending in resolved
timestamp. -/
theorem sortedJobs_pairwise (dispatches : List AgentDispatch) :
    (Handler.sortedJobs dispatches).Pairwise (fun a b => Handler.tsOf b ≤ Handler.tsOf a) :=
  List.sorted_insertionSort Handler.jobsLE (Handler.allJobs dispatches).enum

/-- Helper: membership in the sorted job list is membership in the
enumerated job list. -/
theorem mem_sortedJobs_iff {dispatches : List AgentDispatch} {q : Nat × JobRecord} :
    q ∈ Handler.sortedJobs dispatches ↔ q ∈ (Handler.allJobs dispatches).enum :=
  List.mem_insertionSort Handler.jobsLE

/-- Helper: the characterization of `extractDispatchError` returning an
error: some job failed, and every running/pending job has a strictly
smaller resolved timestamp than the latest failed job. -/
theorem extractDispatchError_isSome_iff (dispatches : List AgentDispatch) :
    (Handler.extractDispatchError dispatches).isSome = true ↔
      ∃ f ∈ Handler.allJobs dispatches, Handler.isFailedJob f = true ∧
        ∀ j ∈ Handler.allJobs dispatches, Handler.isActiveJob j = true →
          Handler.jobTs j < Handler.jobTs f := by
  unfold Handler.extractDispatchError
  by_cases hlen : (Handler.allJobs dispatches).length = 0
  · have hnil : Handler.allJobs dispatches = [] := List.length_eq_zero.mp hlen
    rw [if_pos hlen]
    simp [hnil]
  · rw [if_neg hlen]
    have hsorted := sortedJobs_pairwise dispatches
    cases hfind : (Handler.sortedJobs dispatches).find? Handler.isFailedPair with
    | none =>
      simp only [Option.isSome_none, Bool.false_eq_true, false_iff]
      rintro ⟨f, hf_mem, hf_fail, -⟩
      have hnone := List.find?_eq_none.mp hfind
      obtain ⟨i, hi⟩ := mem_enum_of_mem hf_mem
      exact (hnone _ (mem_sortedJobs_iff.mpr hi)) hf_fail
    | some fp =>
      have hfp_fail : Handler.isFailedPair fp = true := List.find?_some hfind
      have hfp_mem : fp ∈ (Handler.allJobs dispatches).enum :=
        mem_sortedJobs_iff.mp (List.mem_of_find?_eq_some hfind)
      have hmax := find?_key_max Handler.tsOf hsorted hfind
      dsimp only
      by_cases hany : Handler.newerActiveExists (Handler.sortedJobs dispatches) fp = true
      · rw [if_pos hany]
        simp only [Option.isSome_none, Bool.false_eq_true, false_iff]
        rintro ⟨f, hf_mem, hf_fail, hall⟩
        obtain ⟨p, hp_mem, hp_cond⟩ := List.any_eq_true.mp hany
        by_cases h1 : p.1 = fp.1
        · simp [h1] at hp_cond
        · rw [if_neg h1] at hp_cond
          by_cases h2 : Handler.isActiveStatusPair p = true
          · rw [h2] at hp_cond
            simp only [Bool.not_true, Bool.false_eq_true, if_false, decide_eq_true_eq] at hp_cond
            have hp_jobs : p.2 ∈ Handler.allJobs dispatches :=
              mem_of_mem_enum (mem_sortedJobs_iff.mp hp_mem)
            have hlt : Handler.jobTs p.2 < Handler.jobTs f := hall p.2 hp_jobs h2
            obtain ⟨i, hi⟩ := mem_enum_of_mem hf_mem
            have hle : Handler.jobTs f ≤ Handler.tsOf fp :=
              hmax (i, f) (mem_sortedJobs_iff.mpr hi) hf_fail
            have hge : Handler.tsOf fp ≤ Handler.jobTs p.2 := hp_cond
            have : Handler.jobTs p.2 < Handler.jobTs f := hlt
            omega
          · rw [Bool.not_eq_true] at h2
            rw [h2] at hp_cond
            simp at hp_cond
      · have hany' : Handler.newerActiveExists (Handler.sortedJobs dispatches) fp = false :=
          Bool.not_eq_true _ |>.mp hany
        rw [if_neg (by rw [hany']; exact Bool.false_ne_true)]
        simp only [Option.isSome_some, true_iff]
        refine ⟨fp.2, mem_of_mem_enum hfp_mem, hfp_fail, ?_⟩
        intro j hj hact
        obtain ⟨i, hi⟩ := mem_enum_of_mem hj
        have hj_sorted : (i, j) ∈ Handler.sortedJobs dispatches := mem_sortedJobs_iff.mpr hi
        have hanyf := hany'
        unfold Handler.newerActiveExists at hanyf
        have hc := List.any_eq_false.mp hanyf (i, j) hj_sorted
        dsimp only at hc
        by_cases h1 : i = fp.1
        · exfalso
          subst h1
          have hfp_pair : (fp.1, fp.2) ∈ (Handler.allJobs dispatches).enum := by
            rcases fp with ⟨fi, fj⟩; exact hfp_mem
          have hj_eq : j = fp.2 := enum_index_inj hi hfp_pair
          rw [hj_eq] at hact
          have hfail2 : Handler.isFailedJob fp.2 = true := hfp_fail
          simp only [Handler.isActiveJob, Handler.isFailedJob, Bool.or_eq_true,
            beq_iff_eq] at hact hfail2
          rw [hfail2] at hact
          simp at hact
        · have hc' := hc
          rw [if_neg h1] at hc'
          have hact' : Handler.isActiveStatusPair (i, j) = true := hact
          rw [hact'] at hc'
          simp only [Bool.not_true, Bool.false_eq_true, if_false] at hc'
          rw [decide_eq_true_eq] at hc'
          exact lt_of_not_le hc'

/-- Claim C4 (amended): the status operation surfaces a classified error
exactly when some FAILED job exists among the agent-matching dispatches'
jobs and every RUNNING/PENDING job has a resolved timestamp *strictly
smaller* than the latest FAILED job's (a running/pending job with a
timestamp equal to the failed job's also suppresses the error); otherwise
the `error`, `errorCode` and `errorDetail` fields are all null. -/
theorem c4_error_surfacing (agentName : String) (w : Handler.World) :
    ((Handler.statusResponse agentName w).error.isSome = true ↔
      ∃ f ∈ Handler.allJobs (w.dispatches.filter (fun d => d.agentName == some agentName)),
        Handler.isFailedJob f = true ∧
        ∀ j ∈ Handler.allJobs (w.dispatches.filter (fun d => d.agentName == some agentName)),
          Handler.isActiveJob j = true → Handler.jobTs j < Handler.jobTs f)
    ∧ ((Handler.statusResponse agentName w).error = none →
      (Handler.statusResponse agentName w).errorCode = none
      ∧ (Handler.statusResponse agentName w).errorDetail = none) := by
  constructor
  · have h := extractDispatchError_isSome_iff
      (w.dispatches.filter (fun d => d.agentName == some agentName))
    simp only [Handler.statusResponse]
    simpa using h
  · intro he
    simp only [Handler.statusResponse] at he ⊢
    have hnone : Handler.extractDispatchError
        (w.dispatches.filter (fun d => d.agentName == some agentName)) = none :=
      Option.map_eq_none'.mp he
    simp [hnone]

/-- Witness input for C4 (amended): one agent-matching dispatch with a
single running job — no failed job, no error. -/
def c4WitnessDispatch : AgentDispatch :=
  { agentName := some "assistant", id := some "1",
    state := some { jobs := some [.obj { state := some { status := some (.str "JS_RUNNING") } }] } }

/-- Witness world for C4 (amended). -/
def c4WitnessWorld : Handler.World :=
  { dispatches := [c4WitnessDispatch], participants := [] }

/-- Witness for C4 (amended): with no failed job the status response's
error fields are all null. -/
theorem c4_witness :
    (Handler.statusResponse "assistant" c4WitnessWorld).errorCode = none
    ∧ (Handler.statusResponse "assistant" c4WitnessWorld).errorDetail = none :=
  (c4_error_surfacing "assistant" c4WitnessWorld).2 (by decide)

/-- Counterexample input for C4: a FAILED job and a RUNNING job with the
same resolved timestamp (5). -/
def c4CexFailedJob : JobRecord :=
  { state := some { status := some (.str "JS_FAILED"), updatedAt := some (.num 5),
                    error := some (.str "boom") } }

/-- Counterexample input for C4: the running job tying the failed job's
timestamp. -/
def c4CexRunningJob : JobRecord :=
  { state := some { status := some (.str "JS_RUNNING"), updatedAt := some (.num 5) } }

/-- Counterexample dispatch for C4. -/
def c4CexDispatch : AgentDispatch :=
  { agentName := some "assistant", id := some "1",
    state := some { jobs := some [.obj c4CexFailedJob, .obj c4CexRunningJob] } }

/-- Counterexample world for C4. -/
def c4CexWorld : Handler.World := { dispatches := [c4CexDispatch], participants := [] }

/-- Counterexample for C4: the most recent FAILED job exists and *no
strictly newer* job is RUNNING or PENDING (the running job's timestamp
ties the failed job's, so it is not newer), yet the status operation
surfaces no error — the code's suppression check uses `>=`, counting
same-timestamp running jobs as newer. -/
theorem c4_counterexample :
    (Handler.statusResponse "assistant" c4CexWorld).error = none
    ∧ (∃ f ∈ Handler.allJobs
          (c4CexWorld.dispatches.filter (fun d => d.agentName == some "assistant")),
        Handler.isFailedJob f = true
        ∧ (∀ g ∈ Handler.allJobs
              (c4CexWorld.dispatches.filter (fun d => d.agentName == some "assistant")),
            Handler.isFailedJob g = true → Handler.jobTs g ≤ Handler.jobTs f)
        ∧ ∀ j ∈ Handler.allJobs
              (c4CexWorld.dispatches.filter (fun d => d.agentName == some "assistant")),
            Handler.jobTs f < Handler.jobTs j → Handler.isActiveJob j = false) := by
  decide
